import Mathlib

/-!
Verification development for the Younifirst backend API
(`src/main.py`, `src/schemas.py`).

The API layer (request models, handlers) is embedded from `src/main.py`
and `src/schemas.py`.  The persistence accessor (`database.py`: the `db`
handle, `create_document`, `get_documents`) is not part of the source
tree; it is modelled from the specification's description of the
persistence layer, see the doc comments on `Store`, `create_document`,
`get_documents`, `find_one`, `count_documents`.
-/

namespace Younifirst

/-! ## JSON values (request bodies) -/

/-- A JSON value, as far as the request bodies of this API need:
strings, string lists, null, numbers and booleans (the latter two only
to express wrongly-typed fields). -/
inductive JValue where
  | null : JValue
  | str (s : String) : JValue
  | arr (xs : List JValue) : JValue
  | num (n : Int) : JValue
  | bool (b : Bool) : JValue

/-- A JSON object: an association list of field names to values. -/
structure JObj where
  fields : List (String × JValue)

/-- Field lookup in a JSON object (first occurrence wins). -/
def JObj.get (j : JObj) (k : String) : Option JValue :=
  (j.fields.find? (fun p => p.1 = k)).map (·.2)

/-! ## Python `datetime` (pydantic timestamp fields)

`Competition.deadline` and `Event.date` are declared `Optional[datetime]`
in `src/schemas.py`; pydantic parses ISO-8601 strings into `datetime`
values and FastAPI serializes them back via `isoformat()`.  We model the
subset of ISO-8601 that the development uses: `YYYY-MM-DD` and
`YYYY-MM-DDTHH:MM:SS`. -/

structure PyDatetime where
  year : Nat
  month : Nat
  day : Nat
  hour : Nat
  minute : Nat
  second : Nat
deriving DecidableEq, Repr

def digitVal (c : Char) : Option Nat :=
  if c.isDigit then some (c.toNat - 48) else none

def parse2 (a b : Char) : Option Nat := do
  let x ← digitVal a
  let y ← digitVal b
  pure (10 * x + y)

def parse4 (a b c d : Char) : Option Nat := do
  let x ← parse2 a b
  let y ← parse2 c d
  pure (100 * x + y)

def isLeapYear (y : Nat) : Bool :=
  (y % 4 = 0 && y % 100 ≠ 0) || y % 400 = 0

def daysInMonth (y m : Nat) : Nat :=
  if m = 2 then (if isLeapYear y then 29 else 28)
  else if m = 4 || m = 6 || m = 9 || m = 11 then 30
  else 31

def mkDate (y m d : Nat) : Option (Nat × Nat × Nat) :=
  if 1 ≤ m && m ≤ 12 && 1 ≤ d && d ≤ daysInMonth y m then some (y, m, d) else none

def mkTime (h mi s : Nat) : Option (Nat × Nat × Nat) :=
  if h ≤ 23 && mi ≤ 59 && s ≤ 59 then some (h, mi, s) else none

/-- Parse the modelled ISO-8601 subset into a `PyDatetime`.  A date-only
string gets midnight time, matching pydantic's coercion of dates to
`datetime`. -/
def parseDatetime (s : String) : Option PyDatetime :=
  match s.data with
  | [y1, y2, y3, y4, '-', m1, m2, '-', d1, d2] => do
      let y ← parse4 y1 y2 y3 y4
      let m ← parse2 m1 m2
      let d ← parse2 d1 d2
      let (y, m, d) ← mkDate y m d
      pure ⟨y, m, d, 0, 0, 0⟩
  | [y1, y2, y3, y4, '-', m1, m2, '-', d1, d2, 'T', h1, h2, ':', n1, n2, ':', s1, s2] => do
      let y ← parse4 y1 y2 y3 y4
      let m ← parse2 m1 m2
      let d ← parse2 d1 d2
      let (y, m, d) ← mkDate y m d
      let h ← parse2 h1 h2
      let mi ← parse2 n1 n2
      let se ← parse2 s1 s2
      let (h, mi, se) ← mkTime h mi se
      pure ⟨y, m, d, h, mi, se⟩
  | _ => none

def pad2 (n : Nat) : String :=
  if n < 10 then "0" ++ toString n else toString n

def pad4 (n : Nat) : String :=
  if n < 10 then "000" ++ toString n
  else if n < 100 then "00" ++ toString n
  else if n < 1000 then "0" ++ toString n
  else toString n

/-- Python's `datetime.isoformat()` for whole-second datetimes, which is
how FastAPI serializes `datetime` values in responses. -/
def serializeDatetime (d : PyDatetime) : String :=
  pad4 d.year ++ "-" ++ pad2 d.month ++ "-" ++ pad2 d.day ++ "T" ++
    pad2 d.hour ++ ":" ++ pad2 d.minute ++ ":" ++ pad2 d.second

/-! ## Persistence layer

Modelled from the spec: `database.py` (the `db` handle and the accessor
functions `create_document` / `get_documents`) is not under `src/`.
Per the spec, a collection stores documents, every stored document
receives a store-generated unique identifier on creation which is
exposed as an opaque string, `create_document` performs one insert and
returns the new identifier, and `get_documents` returns all documents
matching an optional equality filter, in store-native order. -/

/-- Modelled from the spec: one document collection.  Documents are kept
in insertion order, paired with their store-generated identifier
(`_id`); `nextId` produces fresh identifiers. -/
structure Store (α : Type) where
  docs : List (Nat × α)
  nextId : Nat
deriving DecidableEq, Repr

def Store.empty {α : Type} : Store α := ⟨[], 0⟩

/-- Modelled from the spec: `create_document` serializes the validated
model to a document, inserts it and returns the newly generated
identifier as a string. -/
def create_document {α : Type} (st : Store α) (a : α) : Store α × String :=
  (⟨st.docs ++ [(st.nextId, a)], st.nextId + 1⟩, toString st.nextId)

/-- Modelled from the spec: `get_documents` with no filter returns all
documents in store-native order. -/
def get_documents {α : Type} (st : Store α) : List (Nat × α) :=
  st.docs

/-- Modelled from the spec: `get_documents` with an equality filter,
represented as the predicate the field-to-value mapping induces on
documents. -/
def get_documents_filtered {α : Type} (st : Store α) (flt : α → Bool) : List (Nat × α) :=
  st.docs.filter (fun d => flt d.2)

/-- Modelled from the spec: `find_one` (used by the auth handlers via
the raw `db` handle) returns the first document matching the equality
filter, if any. -/
def find_one {α : Type} (st : Store α) (flt : α → Bool) : Option (Nat × α) :=
  st.docs.find? (fun d => flt d.2)

/-- Modelled from the spec: `count_documents` with an empty filter is
the number of documents in the collection. -/
def count_documents {α : Type} (st : Store α) : Nat :=
  st.docs.length

/-! ## Entity schemas (`src/schemas.py`) -/

/-- `schemas.User`. -/
structure User where
  name : String
  email : String
  password_hash : String
  avatar_url : Option String
  is_active : Bool
deriving DecidableEq, Repr

/-- `schemas.Competition` (deadline already parsed to `datetime`). -/
structure Competition where
  title : String
  description : Option String
  category : Option String
  deadline : Option PyDatetime
  link : Option String
deriving DecidableEq, Repr

/-- `schemas.LostItem`. -/
structure LostItem where
  title : String
  description : Option String
  location : Option String
  status : String
  contact : Option String
deriving DecidableEq, Repr

/-- `schemas.Event` (date already parsed to `datetime`). -/
structure Event where
  title : String
  description : Option String
  date : Option PyDatetime
  location : Option String
  link : Option String
deriving DecidableEq, Repr

/-- `schemas.ForumPost`. -/
structure ForumPost where
  title : String
  content : String
  author : Option String
  tags : Option (List String)
deriving DecidableEq, Repr

/-- `schemas.Comment`. -/
structure Comment where
  post_id : String
  content : String
  author : Option String
deriving DecidableEq, Repr

/-! ## Request models (`src/main.py`) -/

/-- `main.CreateCompetition`: all fields except `title` optional, all
declared as strings at the request layer (`deadline: Optional[str]`). -/
structure CreateCompetition where
  title : String
  description : Option String
  category : Option String
  deadline : Option String
  link : Option String
deriving DecidableEq, Repr

/-- `main.CreateLostItem`.  `status: Optional[str] = "lost"`: the value
is `none` exactly when the request carried an explicit JSON null. -/
structure CreateLostItem where
  title : String
  description : Option String
  location : Option String
  status : Option String
  contact : Option String
deriving DecidableEq, Repr

/-- `main.CreateEvent`. -/
structure CreateEvent where
  title : String
  description : Option String
  date : Option String
  location : Option String
  link : Option String
deriving DecidableEq, Repr

/-- `main.CreateForumPost`. -/
structure CreateForumPost where
  title : String
  content : String
  author : Option String
  tags : Option (List String)
deriving DecidableEq, Repr

/-- `main.CreateComment`. -/
structure CreateComment where
  post_id : String
  content : String
  author : Option String
deriving DecidableEq, Repr

/-- `main.RegisterRequest` (the email-format check of `EmailStr` is not
needed by any claim and is not modelled). -/
structure RegisterRequest where
  name : String
  email : String
  password : String
deriving DecidableEq, Repr

/-- `main.LoginRequest`. -/
structure LoginRequest where
  email : String
  password : String
deriving DecidableEq, Repr

/-! ## Pydantic request validation

FastAPI validates the JSON body against the request model before the
handler runs; a mismatch yields HTTP 422 (unprocessable entity).
Pydantic v2 in its default mode accepts any string (empty included) for
`str`, rejects non-strings, treats a missing optional field and an
explicit null alike as `None`, and does not coerce numbers or booleans
to strings. -/

/-- Validate one required `str` field. -/
def reqStr (j : JObj) (k : String) : Option String :=
  match j.get k with
  | some (.str s) => some s
  | _ => none

/-- Validate one `Optional[str]` field. -/
def optStr (j : JObj) (k : String) : Option (Option String) :=
  match j.get k with
  | none => some none
  | some .null => some none
  | some (.str s) => some (some s)
  | _ => none

/-- All-strings check for a JSON array, as pydantic validates `List[str]`. -/
def listStrs : List JValue → Option (List String)
  | [] => some []
  | .str s :: rest => (listStrs rest).map (s :: ·)
  | _ => none

/-- Validate one `Optional[List[str]]` field. -/
def optStrList (j : JObj) (k : String) : Option (Option (List String)) :=
  match j.get k with
  | none => some none
  | some .null => some none
  | some (.arr xs) => (listStrs xs).map some
  | _ => none

/-- Request validation for `CreateCompetition`. -/
def validateCreateCompetition (j : JObj) : Option CreateCompetition := do
  let title ← reqStr j "title"
  let description ← optStr j "description"
  let category ← optStr j "category"
  let deadline ← optStr j "deadline"
  let link ← optStr j "link"
  pure ⟨title, description, category, deadline, link⟩

/-- Request validation for `CreateLostItem`: an absent `status` takes
the declared default `"lost"`, an explicit null becomes `none`. -/
def validateCreateLostItem (j : JObj) : Option CreateLostItem := do
  let title ← reqStr j "title"
  let description ← optStr j "description"
  let location ← optStr j "location"
  let status ←
    match j.get "status" with
    | none => some (some "lost")
    | some .null => some none
    | some (.str s) => some (some s)
    | _ => none
  let contact ← optStr j "contact"
  pure ⟨title, description, location, status, contact⟩

/-! ## SHA-256 (`hashlib.sha256(...).hexdigest()` in `main.hash_password`)

Machine words are `Nat` reduced mod `2 ^ 32`; messages are byte lists
(each entry `< 256`), obtained from the password string by UTF-8
encoding, matching `password.encode()`. -/

def w32 (n : Nat) : Nat := n % 4294967296

def rotr32 (n k : Nat) : Nat := w32 ((n >>> k) ||| (n <<< (32 - k)))

def shaCh (x y z : Nat) : Nat := (x &&& y) ^^^ ((x ^^^ 4294967295) &&& z)

def shaMaj (x y z : Nat) : Nat := (x &&& y) ^^^ (x &&& z) ^^^ (y &&& z)

def bigSigma0 (x : Nat) : Nat := rotr32 x 2 ^^^ rotr32 x 13 ^^^ rotr32 x 22

def bigSigma1 (x : Nat) : Nat := rotr32 x 6 ^^^ rotr32 x 11 ^^^ rotr32 x 25

def smallSigma0 (x : Nat) : Nat := rotr32 x 7 ^^^ rotr32 x 18 ^^^ (x >>> 3)

def smallSigma1 (x : Nat) : Nat := rotr32 x 17 ^^^ rotr32 x 19 ^^^ (x >>> 10)

def K256 : List Nat :=
  [1116352408, 1899447441, 3049323471, 3921009573,
   961987163, 1508970993, 2453635748, 2870763221,
   3624381080, 310598401, 607225278, 1426881987,
   1925078388, 2162078206, 2614888103, 3248222580,
   3835390401, 4022224774, 264347078, 604807628,
   770255983, 1249150122, 1555081692, 1996064986,
   2554220882, 2821834349, 2952996808, 3210313671,
   3336571891, 3584528711, 113926993, 338241895,
   666307205, 773529912, 1294757372, 1396182291,
   1695183700, 1986661051, 2177026350, 2456956037,
   2730485921, 2820302411, 3259730800, 3345764771,
   3516065817, 3600352804, 4094571909, 275423344,
   430227734, 506948616, 659060556, 883997877,
   958139571, 1322822218, 1537002063, 1747873779,
   1955562222, 2024104815, 2227730452, 2361852424,
   2428436474, 2756734187, 3204031479, 3329325298]

structure Sha256State where
  a : Nat
  b : Nat
  c : Nat
  d : Nat
  e : Nat
  f : Nat
  g : Nat
  h : Nat
deriving DecidableEq, Repr

def initState : Sha256State :=
  ⟨1779033703, 3144134277, 1013904242, 2773480762, 1359893119, 2600822924, 528734635, 1541459225⟩

def shaRound (s : Sha256State) (kc wt : Nat) : Sha256State :=
  let t1 := w32 (s.h + bigSigma1 s.e + shaCh s.e s.f s.g + kc + wt)
  let t2 := w32 (bigSigma0 s.a + shaMaj s.a s.b s.c)
  ⟨w32 (t1 + t2), s.a, s.b, s.c, w32 (s.d + t1), s.e, s.f, s.g⟩

/-- Big-endian 32-bit words from a byte list, four bytes at a time. -/
def toWords : List Nat → List Nat
  | b1 :: b2 :: b3 :: b4 :: rest => (((b1 * 256 + b2) * 256 + b3) * 256 + b4) :: toWords rest
  | _ => []

def nextWord (w : List Nat) : Nat :=
  let n := w.length
  w32 (w.getD (n - 16) 0 + smallSigma0 (w.getD (n - 15) 0) +
       w.getD (n - 7) 0 + smallSigma1 (w.getD (n - 2) 0))

def extendWords : List Nat → Nat → List Nat
  | w, 0 => w
  | w, k + 1 => extendWords (w ++ [nextWord w]) k

def compressChunk (st : Sha256State) (chunk : List Nat) : Sha256State :=
  let ws := extendWords (toWords chunk) 48
  let r := (K256.zip ws).foldl (fun s p => shaRound s p.1 p.2) st
  ⟨w32 (st.a + r.a), w32 (st.b + r.b), w32 (st.c + r.c), w32 (st.d + r.d),
   w32 (st.e + r.e), w32 (st.f + r.f), w32 (st.g + r.g), w32 (st.h + r.h)⟩

/-- Big-endian bytes of `n`, fixed width `k`. -/
def toBytesBE : Nat → Nat → List Nat
  | 0, _ => []
  | k + 1, n => toBytesBE k (n / 256) ++ [n % 256]

/-- SHA-256 padding: `0x80`, zeros to 56 mod 64, then the 64-bit
big-endian bit length. -/
def padMessage (msg : List Nat) : List Nat :=
  let L := msg.length
  let k := (55 + 64 - L % 64) % 64
  msg ++ [0x80] ++ List.replicate k 0 ++ toBytesBE 8 (8 * L)

def group64 (l : List Nat) : List (List Nat) :=
  if h : l = [] then [] else l.take 64 :: group64 (l.drop 64)
termination_by l.length
decreasing_by
  simp only [List.length_drop]
  have : 0 < l.length := List.length_pos.mpr h
  omega

def sha256Words (msg : List Nat) : Sha256State :=
  (group64 (padMessage msg)).foldl compressChunk initState

def hexDigitChar (n : Nat) : Char :=
  if n < 10 then Char.ofNat (48 + n) else Char.ofNat (87 + n)

/-- Fixed-width lowercase hex rendering, `k` digits. -/
def toHexFixed : Nat → Nat → List Char
  | 0, _ => []
  | k + 1, n => toHexFixed k (n / 16) ++ [hexDigitChar (n % 16)]

def wordsOfState (s : Sha256State) : List Nat :=
  [s.a, s.b, s.c, s.d, s.e, s.f, s.g, s.h]

def sha256Hex (msg : List Nat) : String :=
  String.mk ((wordsOfState (sha256Words msg)).flatMap (toHexFixed 8))

/-- UTF-8 encoding of one code point (what `str.encode()` does per
character). -/
def utf8EncodeCharNat (c : Char) : List Nat :=
  let n := c.toNat
  if n < 128 then [n]
  else if n < 2048 then [192 + n / 64, 128 + n % 64]
  else if n < 65536 then [224 + n / 4096, 128 + n / 64 % 64, 128 + n % 64]
  else [240 + n / 262144, 128 + n / 4096 % 64, 128 + n / 64 % 64, 128 + n % 64]

def utf8Bytes (s : String) : List Nat := s.data.flatMap utf8EncodeCharNat

/-- `main.hash_password`: the lowercase hex SHA-256 digest of the
UTF-8-encoded password. -/
def hash_password (password : String) : String :=
  sha256Hex (utf8Bytes password)

/-! ## HTTP result model

A handler either returns a value, raises an `HTTPException` (status and
detail), or lets an unhandled exception escape, which FastAPI turns
into an HTTP 500 server error. -/

structure HTTPError where
  status_code : Nat
  detail : String
deriving DecidableEq, Repr

inductive HResult (α : Type) where
  | ok (a : α) : HResult α
  | httpError (e : HTTPError) : HResult α
  | serverError : HResult α
deriving DecidableEq, Repr

def HResult.isOk {α : Type} : HResult α → Bool
  | .ok _ => true
  | _ => false

/-! ## Auth handlers (`src/main.py`) -/

structure RegisterResponse where
  id : String
  email : String
  name : String
deriving DecidableEq, Repr

structure UserOut where
  id : String
  name : String
  email : String
deriving DecidableEq, Repr

structure LoginResponse where
  message : String
  user : UserOut
deriving DecidableEq, Repr

/-- `main.register_user`.  The store handle is `none` when the backend
is unavailable; the duplicate pre-check is skipped then, and the
subsequent write is undefined per the spec (modelled as an unhandled
fault). -/
def register_user (payload : RegisterRequest) (odb : Option (Store User)) :
    HResult (RegisterResponse × Store User) :=
  match odb with
  | none => .serverError
  | some users =>
      match find_one users (fun u => u.email = payload.email) with
      | some _ => .httpError ⟨400, "Email already registered"⟩
      | none =>
          let user_model : User :=
            ⟨payload.name, payload.email, hash_password payload.password, none, true⟩
          let res := create_document users user_model
          .ok (⟨res.2, payload.email, payload.name⟩, res.1)

/-- `main.login`. -/
def login (payload : LoginRequest) (odb : Option (Store User)) : HResult LoginResponse :=
  let ouser := match odb with
    | none => none
    | some users => find_one users (fun u => u.email = payload.email)
  match ouser with
  | none => .httpError ⟨401, "Invalid credentials"⟩
  | some doc =>
      if doc.2.password_hash ≠ hash_password payload.password then
        .httpError ⟨401, "Invalid credentials"⟩
      else
        .ok ⟨"Login successful", ⟨toString doc.1, doc.2.name, doc.2.email⟩⟩

/-! ## Resource handlers (`src/main.py`) -/

structure IdResponse where
  id : String
deriving DecidableEq, Repr

structure CompetitionOut where
  id : String
  title : String
  description : Option String
  category : Option String
  deadline : Option String
  link : Option String
deriving DecidableEq, Repr

structure LostItemOut where
  id : String
  title : String
  description : Option String
  location : Option String
  status : String
  contact : Option String
deriving DecidableEq, Repr

structure EventOut where
  id : String
  title : String
  description : Option String
  date : Option String
  location : Option String
  link : Option String
deriving DecidableEq, Repr

structure ForumPostOut where
  id : String
  title : String
  content : String
  author : Option String
  tags : Option (List String)
deriving DecidableEq, Repr

structure CommentOut where
  id : String
  post_id : String
  content : String
  author : Option String
deriving DecidableEq, Repr

def competitionOut (doc : Nat × Competition) : CompetitionOut :=
  ⟨toString doc.1, doc.2.title, doc.2.description, doc.2.category,
    doc.2.deadline.map serializeDatetime, doc.2.link⟩

def lostItemOut (doc : Nat × LostItem) : LostItemOut :=
  ⟨toString doc.1, doc.2.title, doc.2.description, doc.2.location, doc.2.status, doc.2.contact⟩

def eventOut (doc : Nat × Event) : EventOut :=
  ⟨toString doc.1, doc.2.title, doc.2.description, doc.2.date.map serializeDatetime,
    doc.2.location, doc.2.link⟩

def forumPostOut (doc : Nat × ForumPost) : ForumPostOut :=
  ⟨toString doc.1, doc.2.title, doc.2.content, doc.2.author, doc.2.tags⟩

def commentOut (doc : Nat × Comment) : CommentOut :=
  ⟨toString doc.1, doc.2.post_id, doc.2.content, doc.2.author⟩

/-- `main.list_competitions`: all documents with `_id` projected to `id`
(datetime fields serialized by FastAPI). -/
def list_competitions (odb : Option (Store Competition)) : List CompetitionOut :=
  match odb with
  | none => []
  | some st => (get_documents st).map competitionOut

/-- `main.create_competition`: builds `schemas.Competition` from the
request model (pydantic parses the deadline string, an invalid one
raises an unhandled `ValidationError`), then inserts. -/
def create_competition (payload : CreateCompetition) (odb : Option (Store Competition)) :
    HResult (IdResponse × Store Competition) :=
  match odb with
  | none => .serverError
  | some st =>
      let build : HResult (Option PyDatetime) :=
        match payload.deadline with
        | none => .ok none
        | some s =>
            match parseDatetime s with
            | none => .serverError
            | some d => .ok (some d)
      match build with
      | .ok dl =>
          let comp : Competition :=
            ⟨payload.title, payload.description, payload.category, dl, payload.link⟩
          let res := create_document st comp
          .ok (⟨res.2⟩, res.1)
      | .httpError e => .httpError e
      | .serverError => .serverError

/-- `main.list_lostfound`. -/
def list_lostfound (odb : Option (Store LostItem)) : List LostItemOut :=
  match odb with
  | none => []
  | some st => (get_documents st).map lostItemOut

/-- `main.create_lostfound`: builds `schemas.LostItem`; `status` there
is a plain `str`, so an explicit null in the request raises an
unhandled `ValidationError`. -/
def create_lostfound (payload : CreateLostItem) (odb : Option (Store LostItem)) :
    HResult (IdResponse × Store LostItem) :=
  match odb with
  | none => .serverError
  | some st =>
      match payload.status with
      | none => .serverError
      | some stat =>
          let item : LostItem :=
            ⟨payload.title, payload.description, payload.location, stat, payload.contact⟩
          let res := create_document st item
          .ok (⟨res.2⟩, res.1)

/-- `main.list_events`. -/
def list_events (odb : Option (Store Event)) : List EventOut :=
  match odb with
  | none => []
  | some st => (get_documents st).map eventOut

/-- `main.create_event` (date parsed like the competition deadline). -/
def create_event (payload : CreateEvent) (odb : Option (Store Event)) :
    HResult (IdResponse × Store Event) :=
  match odb with
  | none => .serverError
  | some st =>
      let build : HResult (Option PyDatetime) :=
        match payload.date with
        | none => .ok none
        | some s =>
            match parseDatetime s with
            | none => .serverError
            | some d => .ok (some d)
      match build with
      | .ok dt =>
          let ev : Event := ⟨payload.title, payload.description, dt, payload.location, payload.link⟩
          let res := create_document st ev
          .ok (⟨res.2⟩, res.1)
      | .httpError e => .httpError e
      | .serverError => .serverError

/-- `main.list_posts`. -/
def list_posts (odb : Option (Store ForumPost)) : List ForumPostOut :=
  match odb with
  | none => []
  | some st => (get_documents st).map forumPostOut

/-- `main.create_post`. -/
def create_post (payload : CreateForumPost) (odb : Option (Store ForumPost)) :
    HResult (IdResponse × Store ForumPost) :=
  match odb with
  | none => .serverError
  | some st =>
      let p : ForumPost := ⟨payload.title, payload.content, payload.author, payload.tags⟩
      let res := create_document st p
      .ok (⟨res.2⟩, res.1)

/-- `main.list_comments`: documents of the `comment` collection whose
`post_id` equals the path parameter. -/
def list_comments (post_id : String) (odb : Option (Store Comment)) : List CommentOut :=
  match odb with
  | none => []
  | some st => (get_documents_filtered st (fun c => c.post_id = post_id)).map commentOut

/-- `main.create_comment`. -/
def create_comment (payload : CreateComment) (odb : Option (Store Comment)) :
    HResult (IdResponse × Store Comment) :=
  match odb with
  | none => .serverError
  | some st =>
      let c : Comment := ⟨payload.post_id, payload.content, payload.author⟩
      let res := create_document st c
      .ok (⟨res.2⟩, res.1)

/-! ## Diagnostics handlers (`src/main.py`) -/

/-- State of the persistence backend as `/test` can observe it:
`unavailable` is `db is None`; `conn` carries the outcome of
`db.list_collection_names()`, whose fault (if any) is the raised
exception's message. -/
inductive DbConn where
  | unavailable : DbConn
  | conn (collections : Except String (List String)) : DbConn

structure TestEnv where
  dbc : DbConn
  databaseUrlSet : Bool
  databaseNameSet : Bool

structure TestResponse where
  backend : String
  database : String
  database_url : Option String
  database_name : Option String
  connection_status : String
  collections : List String
deriving DecidableEq, Repr

/-- Python's `s[:n]` slice. -/
def pyTruncate (n : Nat) (s : String) : String := String.mk (s.data.take n)

/-- `main.test_database`.  The two `try/except` blocks of the source are
embedded as the `match` on the probe's `Except` outcome: a fault from
`list_collection_names` is rendered into the `database` field instead of
propagating, and nothing else in the body can raise. -/
def test_database (env : TestEnv) : TestResponse :=
  match env.dbc with
  | .unavailable =>
      ⟨"✅ Running", "⚠️ Available but not initialized", none, none, "Not Connected", []⟩
  | .conn lc =>
      let url := some (if env.databaseUrlSet then "✅ Set" else "❌ Not Set")
      let nm := some (if env.databaseNameSet then "✅ Set" else "❌ Not Set")
      match lc with
      | .ok cols =>
          ⟨"✅ Running", "✅ Connected & Working", url, nm, "Connected", cols.take 10⟩
      | .error e =>
          ⟨"✅ Running", "⚠️ Connected but Error: " ++ pyTruncate 50 e, url, nm, "Connected", []⟩

/-- The `/test` route as FastAPI sees it: the handler returns normally
for every backend state, so the route always answers HTTP 200. -/
def test_route (env : TestEnv) : HResult TestResponse :=
  .ok (test_database env)

/-- The whole database: one `Store` per collection, in the collection
naming of the source. -/
structure DBState where
  users : Store User
  competitions : Store Competition
  lostitems : Store LostItem
  events : Store Event
  posts : Store ForumPost
  comments : Store Comment
deriving DecidableEq, Repr

def DBState.clean : DBState :=
  ⟨Store.empty, Store.empty, Store.empty, Store.empty, Store.empty, Store.empty⟩

structure DashboardSummary where
  users : Nat
  competitions : Nat
  lost_items : Nat
  events : Nat
  posts : Nat
deriving DecidableEq, Repr

/-- `main.dashboard_summary`: `count_documents` per collection, each
count `0` when the store is unavailable.  The `comment` collection is
not queried by the source. -/
def dashboard_summary (odb : Option DBState) : DashboardSummary :=
  match odb with
  | none => ⟨0, 0, 0, 0, 0⟩
  | some db =>
      ⟨count_documents db.users, count_documents db.competitions,
       count_documents db.lostitems, count_documents db.events,
       count_documents db.posts⟩

/-! ## Operation traces (for the dashboard-count property) -/

/-- One write request against the API. -/
inductive Op where
  | register (p : RegisterRequest) : Op
  | newCompetition (p : CreateCompetition) : Op
  | newLostItem (p : CreateLostItem) : Op
  | newEvent (p : CreateEvent) : Op
  | newPost (p : CreateForumPost) : Op
  | newComment (p : CreateComment) : Op
deriving DecidableEq

/-- Run one operation against the available store; the state is
unchanged when the handler fails (every failure happens before the
insert).  The boolean records whether the create succeeded. -/
def applyOp (db : DBState) (op : Op) : DBState × Bool :=
  match op with
  | .register p =>
      match register_user p (some db.users) with
      | .ok res => ({ db with users := res.2 }, true)
      | _ => (db, false)
  | .newCompetition p =>
      match create_competition p (some db.competitions) with
      | .ok res => ({ db with competitions := res.2 }, true)
      | _ => (db, false)
  | .newLostItem p =>
      match create_lostfound p (some db.lostitems) with
      | .ok res => ({ db with lostitems := res.2 }, true)
      | _ => (db, false)
  | .newEvent p =>
      match create_event p (some db.events) with
      | .ok res => ({ db with events := res.2 }, true)
      | _ => (db, false)
  | .newPost p =>
      match create_post p (some db.posts) with
      | .ok res => ({ db with posts := res.2 }, true)
      | _ => (db, false)
  | .newComment p =>
      match create_comment p (some db.comments) with
      | .ok res => ({ db with comments := res.2 }, true)
      | _ => (db, false)

/-- Run a list of operations, recording each op with its success flag. -/
def runTrace (db : DBState) : List Op → DBState × List (Op × Bool)
  | [] => (db, [])
  | op :: rest =>
      let r := applyOp db op
      let rec' := runTrace r.1 rest
      (rec'.1, (op, r.2) :: rec'.2)

def Op.targetsUsers : Op → Bool
  | .register _ => true
  | _ => false

def Op.targetsCompetitions : Op → Bool
  | .newCompetition _ => true
  | _ => false

def Op.targetsLostItems : Op → Bool
  | .newLostItem _ => true
  | _ => false

def Op.targetsEvents : Op → Bool
  | .newEvent _ => true
  | _ => false

def Op.targetsPosts : Op → Bool
  | .newPost _ => true
  | _ => false

def Op.targetsComments : Op → Bool
  | .newComment _ => true
  | _ => false

/-- Number of successful creates into one collection in a trace. -/
def successCount (trace : List (Op × Bool)) (isTarget : Op → Bool) : Nat :=
  (trace.filter (fun t => isTarget t.1 && t.2)).length

/-! ## Full route pipeline (FastAPI request validation + handler)

FastAPI rejects a body that does not validate against the request model
with HTTP 422 before the handler runs; an exception the handler does not
catch becomes HTTP 500.  Error outcomes carry no store: the collection
is unchanged whenever the request does not reach the insert. -/

inductive RouteResult (α : Type) where
  | ok (a : α) : RouteResult α
  | unprocessable : RouteResult α
  | httpError (e : HTTPError) : RouteResult α
  | serverError : RouteResult α
deriving DecidableEq, Repr

/-- `POST /competitions` as a whole: body validation, then
`main.create_competition`. -/
def postCompetitionRoute (j : JObj) (odb : Option (Store Competition)) :
    RouteResult (IdResponse × Store Competition) :=
  match validateCreateCompetition j with
  | none => .unprocessable
  | some p =>
      match create_competition p odb with
      | .ok res => .ok res
      | .httpError e => .httpError e
      | .serverError => .serverError

/-- `POST /lostfound` as a whole: body validation, then
`main.create_lostfound`. -/
def postLostfoundRoute (j : JObj) (odb : Option (Store LostItem)) :
    RouteResult (IdResponse × Store LostItem) :=
  match validateCreateLostItem j with
  | none => .unprocessable
  | some p =>
      match create_lostfound p odb with
      | .ok res => .ok res
      | .httpError e => .httpError e
      | .serverError => .serverError

/-- The `datetime` pydantic builds for an optional timestamp field of
the entity model: absent stays absent, an invalid string is a
`ValidationError`. -/
def buildDatetime : Option String → Option (Option PyDatetime)
  | none => some none
  | some s => (parseDatetime s).map some

/-- Lowercase hexadecimal digit. -/
def isLowerHexDigit (c : Char) : Bool :=
  ('0' ≤ c && c ≤ '9') || ('a' ≤ c && c ≤ 'f')

/-! ## Handler shape lemmas -/

theorem register_user_ok_iff (p : RegisterRequest) (st st2 : Store User) (r : RegisterResponse) :
    register_user p (some st) = .ok (r, st2) ↔
      find_one st (fun u => u.email = p.email) = none ∧
      r = ⟨toString st.nextId, p.email, p.name⟩ ∧
      st2 = ⟨st.docs ++ [(st.nextId, ⟨p.name, p.email, hash_password p.password, none, true⟩)],
             st.nextId + 1⟩ := by
  unfold register_user create_document
  dsimp only
  cases h : find_one st (fun u => u.email = p.email) with
  | none =>
      dsimp only
      constructor
      · intro hh
        injection hh with hh2
        injection hh2 with h1 h2
        exact ⟨rfl, h1.symm, h2.symm⟩
      · rintro ⟨-, h1, h2⟩
        subst h1; subst h2; rfl
  | some d => simp

theorem create_competition_ok_iff (p : CreateCompetition) (st st2 : Store Competition)
    (r : IdResponse) :
    create_competition p (some st) = .ok (r, st2) ↔
      ∃ dl, buildDatetime p.deadline = some dl ∧
        r = ⟨toString st.nextId⟩ ∧
        st2 = ⟨st.docs ++ [(st.nextId, ⟨p.title, p.description, p.category, dl, p.link⟩)],
               st.nextId + 1⟩ := by
  unfold create_competition create_document
  dsimp only
  cases hdl : p.deadline with
  | none =>
      dsimp only
      constructor
      · intro hh
        injection hh with hh2
        injection hh2 with h1 h2
        exact ⟨none, rfl, h1.symm, h2.symm⟩
      · rintro ⟨dl, hdl2, h1, h2⟩
        simp only [buildDatetime] at hdl2
        injection hdl2 with h3
        subst h3; subst h1; subst h2; rfl
  | some s =>
      dsimp only
      cases hp : parseDatetime s with
      | none => simp [buildDatetime, hp]
      | some d =>
          dsimp only
          constructor
          · intro hh
            injection hh with hh2
            injection hh2 with h1 h2
            exact ⟨some d, by simp [buildDatetime, hp], h1.symm, h2.symm⟩
          · rintro ⟨dl, hdl2, h1, h2⟩
            simp only [buildDatetime, hp, Option.map_some] at hdl2
            injection hdl2 with h3
            subst h3; subst h1; subst h2; rfl

theorem create_event_ok_iff (p : CreateEvent) (st st2 : Store Event) (r : IdResponse) :
    create_event p (some st) = .ok (r, st2) ↔
      ∃ dt, buildDatetime p.date = some dt ∧
        r = ⟨toString st.nextId⟩ ∧
        st2 = ⟨st.docs ++ [(st.nextId, ⟨p.title, p.description, dt, p.location, p.link⟩)],
               st.nextId + 1⟩ := by
  unfold create_event create_document
  dsimp only
  cases hdl : p.date with
  | none =>
      dsimp only
      constructor
      · intro hh
        injection hh with hh2
        injection hh2 with h1 h2
        exact ⟨none, rfl, h1.symm, h2.symm⟩
      · rintro ⟨dt, hdl2, h1, h2⟩
        simp only [buildDatetime] at hdl2
        injection hdl2 with h3
        subst h3; subst h1; subst h2; rfl
  | some s =>
      dsimp only
      cases hp : parseDatetime s with
      | none => simp [buildDatetime, hp]
      | some d =>
          dsimp only
          constructor
          · intro hh
            injection hh with hh2
            injection hh2 with h1 h2
            exact ⟨some d, by simp [buildDatetime, hp], h1.symm, h2.symm⟩
          · rintro ⟨dt, hdl2, h1, h2⟩
            simp only [buildDatetime, hp, Option.map_some] at hdl2
            injection hdl2 with h3
            subst h3; subst h1; subst h2; rfl

theorem create_lostfound_ok_iff (p : CreateLostItem) (st st2 : Store LostItem) (r : IdResponse) :
    create_lostfound p (some st) = .ok (r, st2) ↔
      ∃ stat, p.status = some stat ∧
        r = ⟨toString st.nextId⟩ ∧
        st2 = ⟨st.docs ++ [(st.nextId, ⟨p.title, p.description, p.location, stat, p.contact⟩)],
               st.nextId + 1⟩ := by
  unfold create_lostfound create_document
  dsimp only
  cases h : p.status with
  | none => simp
  | some stat =>
      dsimp only
      constructor
      · intro hh
        injection hh with hh2
        injection hh2 with h1 h2
        exact ⟨stat, rfl, h1.symm, h2.symm⟩
      · rintro ⟨s2, hs2, h1, h2⟩
        injection hs2 with h3
        subst h3; subst h1; subst h2; rfl

theorem create_post_eq (p : CreateForumPost) (st : Store ForumPost) :
    create_post p (some st) =
      .ok (⟨toString st.nextId⟩,
        ⟨st.docs ++ [(st.nextId, ⟨p.title, p.content, p.author, p.tags⟩)], st.nextId + 1⟩) := rfl

theorem create_comment_eq (p : CreateComment) (st : Store Comment) :
    create_comment p (some st) =
      .ok (⟨toString st.nextId⟩,
        ⟨st.docs ++ [(st.nextId, ⟨p.post_id, p.content, p.author⟩)], st.nextId + 1⟩) := rfl

/-! ## C3: failing logins are indistinguishable -/

/-- C3: every failing login — unknown email as well as wrong password —
produces one and the same unauthorized error: status 401, detail
"Invalid credentials".  The two failure causes cannot be told apart from
the response. -/
theorem login_unauthorized_uniform (p : LoginRequest) (odb : Option (Store User))
    (e : HTTPError) (hfail : login p odb = .httpError e) :
    e = ⟨401, "Invalid credentials"⟩ := by
  unfold login at hfail
  rcases odb with _ | users <;> dsimp only at hfail
  · exact (HResult.httpError.inj hfail).symm
  · split at hfail
    · exact (HResult.httpError.inj hfail).symm
    · split at hfail
      · exact (HResult.httpError.inj hfail).symm
      · simp at hfail

/-- Witness for C3: a concrete failing login (unknown email on an empty
user collection). -/
theorem login_unauthorized_uniform_witness :
    (⟨401, "Invalid credentials"⟩ : HTTPError) = ⟨401, "Invalid credentials"⟩ :=
  login_unauthorized_uniform ⟨"a@b.c", "x"⟩ (some Store.empty) ⟨401, "Invalid credentials"⟩ rfl

/-! ## C6: comment listing filters by post id -/

/-- C6: a projected comment is returned by
`GET /forum/posts/(post_id)/comments` exactly when a stored comment
document has that `post_id`; comments of other posts are never
returned. -/
theorem list_comments_exactly_matching (pid : String) (st : Store Comment) (c : CommentOut) :
    c ∈ list_comments pid (some st) ↔
      ∃ doc ∈ st.docs, doc.2.post_id = pid ∧ c = commentOut doc := by
  simp only [list_comments, get_documents_filtered, List.mem_map, List.mem_filter,
    decide_eq_true_eq]
  constructor
  · rintro ⟨d, ⟨hd, hp⟩, rfl⟩
    exact ⟨d, hd, hp, rfl⟩
  · rintro ⟨d, hd, hp, rfl⟩
    exact ⟨d, ⟨hd, hp⟩, rfl⟩

/-! ## C8: the diagnostics endpoint never fails -/

/-- C8: `GET /test` answers HTTP success for every backend state; at
most 10 collection names are listed, and a fault raised by the
collection probe is rendered into the `database` field as a string
truncated to 50 characters instead of propagating. -/
theorem test_route_always_ok (env : TestEnv) :
    test_route env = .ok (test_database env) ∧
    (test_database env).collections.length ≤ 10 ∧
    (∀ e, env.dbc = .conn (.error e) →
      (test_database env).database = "⚠️ Connected but Error: " ++ pyTruncate 50 e ∧
      (pyTruncate 50 e).length ≤ 50) := by
  obtain ⟨dbc, u, n⟩ := env
  refine ⟨rfl, ?_, ?_⟩
  · cases dbc with
    | unavailable => simp [test_database]
    | conn lc =>
        cases lc with
        | ok cols => simp only [test_database, List.length_take]; omega
        | error e => simp [test_database]
  · intro e he
    cases he
    refine ⟨rfl, ?_⟩
    show (e.data.take 50).length ≤ 50
    simp only [List.length_take]
    omega

/-- Witness for C8 at a concrete faulting backend. -/
theorem test_route_always_ok_witness :
    (test_database ⟨DbConn.conn (Except.error "boom"), false, false⟩).database =
      "⚠️ Connected but Error: " ++ pyTruncate 50 "boom" ∧
    (pyTruncate 50 "boom").length ≤ 50 :=
  (test_route_always_ok ⟨DbConn.conn (Except.error "boom"), false, false⟩).2.2 "boom" rfl

/-! ## Hex digest lemmas -/

theorem toHexFixed_length (k n : Nat) : (toHexFixed k n).length = k := by
  induction k generalizing n with
  | zero => rfl
  | succ k ih => simp [toHexFixed, ih]

theorem hexDigitChar_isLowerHex : ∀ m, m < 16 → isLowerHexDigit (hexDigitChar m) = true := by
  decide

theorem toHexFixed_hex (k n : Nat) : ∀ c ∈ toHexFixed k n, isLowerHexDigit c = true := by
  induction k generalizing n with
  | zero => intro c hc; simp [toHexFixed] at hc
  | succ k ih =>
      intro c hc
      simp only [toHexFixed, List.mem_append, List.mem_singleton] at hc
      rcases hc with hc | hc
      · exact ih (n / 16) c hc
      · subst hc
        exact hexDigitChar_isLowerHex (n % 16) (Nat.mod_lt n (by decide))

theorem sha256Hex_length (m : List Nat) : (sha256Hex m).length = 64 := by
  show ((wordsOfState (sha256Words m)).flatMap (toHexFixed 8)).length = 64
  simp [wordsOfState, toHexFixed_length]

theorem sha256Hex_chars (m : List Nat) :
    ∀ c ∈ (sha256Hex m).data, isLowerHexDigit c = true := by
  intro c hc
  have hmem : c ∈ (wordsOfState (sha256Words m)).flatMap (toHexFixed 8) := hc
  rw [List.mem_flatMap] at hmem
  obtain ⟨w, _, hcw⟩ := hmem
  exact toHexFixed_hex 8 w c hcw

/-! ## C2: duplicate registration -/

/-- C2: after a successful registration, the response carries the
generated id with the submitted email and name; a second registration
with the same email fails with the 400 client error
"Email already registered" and writes nothing (the user collection is
unchanged by the failing call). -/
theorem register_twice_same_email (st st2 : Store User) (p q : RegisterRequest)
    (r : RegisterResponse) (hq : q.email = p.email)
    (h1 : register_user p (some st) = .ok (r, st2)) :
    r = ⟨toString st.nextId, p.email, p.name⟩ ∧
    register_user q (some st2) = .httpError ⟨400, "Email already registered"⟩ ∧
    (∀ db : DBState, db.users = st2 → applyOp db (.register q) = (db, false)) := by
  obtain ⟨hnone, hr, hst2⟩ := (register_user_ok_iff p st st2 r).mp h1
  subst hst2
  have h2nd : register_user q
      (some ⟨st.docs ++ [(st.nextId, ⟨p.name, p.email, hash_password p.password, none, true⟩)],
             st.nextId + 1⟩) = .httpError ⟨400, "Email already registered"⟩ := by
    unfold register_user
    dsimp only
    simp only [hq]
    unfold find_one at hnone ⊢
    dsimp only
    rw [List.find?_append, hnone]
    simp
  exact ⟨hr, h2nd, fun db hdb => by simp [applyOp, hdb, h2nd]⟩

/-- Witness for C2: concrete duplicate registration against a
one-user collection. -/
theorem register_twice_same_email_witness :
    register_user ⟨"n2", "e", "x"⟩
      (some ⟨[(0, ⟨"n", "e", hash_password "pw", none, true⟩)], 1⟩) =
      .httpError ⟨400, "Email already registered"⟩ :=
  (register_twice_same_email Store.empty _ ⟨"n", "e", "pw"⟩ ⟨"n2", "e", "x"⟩
    ⟨"0", "e", "n"⟩ rfl rfl).2.1

/-! ## C4: login after registration -/

/-- C4: for a user created by `/auth/register`, login with that email
succeeds exactly when the hash of the supplied password equals the
stored `password_hash` (the hash of the registration password), and on
success returns the id generated at registration together with the
user's name and email. -/
theorem login_after_register (st st2 : Store User) (p : RegisterRequest)
    (r : RegisterResponse) (q : LoginRequest) (hq : q.email = p.email)
    (h1 : register_user p (some st) = .ok (r, st2)) :
    ((login q (some st2)).isOk = true ↔
      hash_password q.password = hash_password p.password) ∧
    (hash_password q.password = hash_password p.password →
      login q (some st2) = .ok ⟨"Login successful", ⟨r.id, p.name, p.email⟩⟩) := by
  obtain ⟨hnone, hr, hst2⟩ := (register_user_ok_iff p st st2 r).mp h1
  subst hst2; subst hr
  have hfind : find_one
      (⟨st.docs ++ [(st.nextId, ⟨p.name, p.email, hash_password p.password, none, true⟩)],
        st.nextId + 1⟩ : Store User) (fun u => u.email = q.email) =
      some (st.nextId, ⟨p.name, p.email, hash_password p.password, none, true⟩) := by
    simp only [hq]
    unfold find_one at hnone ⊢
    dsimp only
    rw [List.find?_append, hnone]
    simp
  unfold login
  dsimp only
  rw [hfind]
  by_cases hpw : hash_password q.password = hash_password p.password
  · constructor
    · simp [hpw, HResult.isOk]
    · intro _
      simp [hpw]
  · have hpw' : hash_password p.password ≠ hash_password q.password := fun h => hpw h.symm
    constructor
    · simp [HResult.isOk, hpw, hpw']
    · intro h; exact absurd h hpw

/-- Witness for C4: concrete login with the registration password. -/
theorem login_after_register_witness :
    ((login ⟨"e", "pw"⟩
        (some ⟨[(0, ⟨"n", "e", hash_password "pw", none, true⟩)], 1⟩)).isOk = true ↔
      hash_password "pw" = hash_password "pw") ∧
    (hash_password "pw" = hash_password "pw" →
      login ⟨"e", "pw"⟩ (some ⟨[(0, ⟨"n", "e", hash_password "pw", none, true⟩)], 1⟩) =
        .ok ⟨"Login successful", ⟨"0", "n", "e"⟩⟩) :=
  login_after_register Store.empty _ ⟨"n", "e", "pw"⟩ ⟨"0", "e", "n"⟩ ⟨"e", "pw"⟩ rfl rfl

/-! ## C10: the stored user document -/

/-- C10: a registration stores exactly one new user document, with the
submitted name and email, `avatar_url` absent, `is_active = true`, and
`password_hash` equal to the SHA-256 hex digest of the submitted
password — 64 lowercase hexadecimal characters.  The document has no
other field (by the shape of `schemas.User`), so the raw password is
not stored; the response carries exactly id, email and name, no
password field. -/
theorem register_stores_hashed_user (st st2 : Store User) (p : RegisterRequest)
    (r : RegisterResponse) (h1 : register_user p (some st) = .ok (r, st2)) :
    st2.docs =
      st.docs ++ [(st.nextId, ⟨p.name, p.email, hash_password p.password, none, true⟩)] ∧
    r = ⟨toString st.nextId, p.email, p.name⟩ ∧
    (hash_password p.password).length = 64 ∧
    (∀ c ∈ (hash_password p.password).data, isLowerHexDigit c = true) := by
  obtain ⟨hnone, hr, hst2⟩ := (register_user_ok_iff p st st2 r).mp h1
  subst hst2
  exact ⟨rfl, hr, sha256Hex_length _, sha256Hex_chars _⟩

/-- Witness for C10 at a concrete registration. -/
theorem register_stores_hashed_user_witness :
    ([(0, (⟨"n", "e", hash_password "pw", none, true⟩ : User))] : List (Nat × User)) =
      [] ++ [(0, ⟨"n", "e", hash_password "pw", none, true⟩)] ∧
    (⟨"0", "e", "n"⟩ : RegisterResponse) = ⟨toString (0 : Nat), "e", "n"⟩ ∧
    (hash_password "pw").length = 64 ∧
    (∀ c ∈ (hash_password "pw").data, isLowerHexDigit c = true) :=
  register_stores_hashed_user Store.empty _ ⟨"n", "e", "pw"⟩ ⟨"0", "e", "n"⟩ rfl

/-! ## C9: the LostItem status field -/

/-- What request validation determines about the `status` field of
`CreateLostItem`: absent means the default `"lost"`, a string passes
through unchanged. -/
theorem validateCreateLostItem_status (j : JObj) (p : CreateLostItem)
    (h : validateCreateLostItem j = some p) :
    (j.get "status" = none → p.status = some "lost") ∧
    (∀ s, j.get "status" = some (.str s) → p.status = some s) := by
  constructor
  · intro hget
    simp only [validateCreateLostItem, hget, Option.pure_def, Option.bind_eq_bind,
      Option.bind_eq_some, Option.some.injEq] at h
    obtain ⟨t, h1, d, h2, l, h3, s0, h4, c0, h5, hp⟩ := h
    subst hp
    exact h4.symm
  · intro s hget
    simp only [validateCreateLostItem, hget, Option.pure_def, Option.bind_eq_bind,
      Option.bind_eq_some, Option.some.injEq] at h
    obtain ⟨t, h1, d, h2, l, h3, s0, h4, c0, h5, hp⟩ := h
    subst hp
    exact h4.symm

/-- C9 counterexample: `POST /lostfound` accepts and stores a status
that is neither "lost" nor "found" — the enum restriction is not
enforced anywhere. -/
theorem lostfound_status_unrestricted_counterexample :
    create_lostfound ⟨"t", none, none, some "banana", none⟩ (some Store.empty) =
      .ok (⟨"0"⟩, ⟨[(0, ⟨"t", none, none, "banana", none⟩)], 1⟩) ∧
    ("banana" ≠ "lost" ∧ "banana" ≠ "found") :=
  ⟨rfl, by decide⟩

/-- C9 amended: the stored `status` of an accepted LostItem equals the
submitted status string when one was submitted — any string is accepted,
not only "lost"/"found" — and equals "lost" when the request omitted the
field. -/
theorem lostfound_status_passthrough (j : JObj) (p : CreateLostItem)
    (st st2 : Store LostItem) (r : IdResponse)
    (hval : validateCreateLostItem j = some p)
    (hcr : create_lostfound p (some st) = .ok (r, st2)) :
    st2.nextId = st.nextId + 1 ∧
    (j.get "status" = none →
      st2.docs = st.docs ++
        [(st.nextId, ⟨p.title, p.description, p.location, "lost", p.contact⟩)]) ∧
    (∀ s, j.get "status" = some (.str s) →
      st2.docs = st.docs ++
        [(st.nextId, ⟨p.title, p.description, p.location, s, p.contact⟩)]) := by
  obtain ⟨stat, hs, hr, hst2⟩ := (create_lostfound_ok_iff p st st2 r).mp hcr
  obtain ⟨habsent, hstr⟩ := validateCreateLostItem_status j p hval
  subst hst2
  refine ⟨rfl, ?_, ?_⟩
  · intro hget
    have : stat = "lost" := by
      have h2 := habsent hget
      rw [hs] at h2
      injection h2
    rw [this]
  · intro s hget
    have : stat = s := by
      have h2 := hstr s hget
      rw [hs] at h2
      injection h2
    rw [this]

/-- Witness for C9 at a request that omits `status`. -/
theorem lostfound_status_passthrough_witness :
    (1 : Nat) = 0 + 1 ∧
    ((⟨[("title", JValue.str "t")]⟩ : JObj).get "status" = none →
      [(0, (⟨"t", none, none, "lost", none⟩ : LostItem))] =
        [] ++ [(0, ⟨"t", none, none, "lost", none⟩)]) ∧
    (∀ s, (⟨[("title", JValue.str "t")]⟩ : JObj).get "status" = some (.str s) →
      [(0, (⟨"t", none, none, "lost", none⟩ : LostItem))] =
        [] ++ [(0, ⟨"t", none, none, s, none⟩)]) :=
  lostfound_status_passthrough ⟨[("title", JValue.str "t")]⟩
    ⟨"t", none, none, some "lost", none⟩ Store.empty
    ⟨[(0, ⟨"t", none, none, "lost", none⟩)], 1⟩ ⟨"0"⟩ rfl rfl

/-! ## C7: dashboard counts -/

theorem successCount_cons (t : Op × Bool) (ts : List (Op × Bool)) (f : Op → Bool) :
    successCount (t :: ts) f = (if f t.1 && t.2 then 1 else 0) + successCount ts f := by
  by_cases hq : f t.1 && t.2
  · simp [successCount, List.filter_cons, hq, Nat.add_comm]
  · simp [successCount, List.filter_cons, hq]

/-- How one operation changes each collection's document count: the
target collection grows by one exactly on success, the others never
change. -/
theorem applyOp_lengths (db : DBState) (op : Op) :
    (applyOp db op).1.users.docs.length =
      db.users.docs.length + (if Op.targetsUsers op && (applyOp db op).2 then 1 else 0) ∧
    (applyOp db op).1.competitions.docs.length =
      db.competitions.docs.length +
        (if Op.targetsCompetitions op && (applyOp db op).2 then 1 else 0) ∧
    (applyOp db op).1.lostitems.docs.length =
      db.lostitems.docs.length + (if Op.targetsLostItems op && (applyOp db op).2 then 1 else 0) ∧
    (applyOp db op).1.events.docs.length =
      db.events.docs.length + (if Op.targetsEvents op && (applyOp db op).2 then 1 else 0) ∧
    (applyOp db op).1.posts.docs.length =
      db.posts.docs.length + (if Op.targetsPosts op && (applyOp db op).2 then 1 else 0) ∧
    (applyOp db op).1.comments.docs.length =
      db.comments.docs.length + (if Op.targetsComments op && (applyOp db op).2 then 1 else 0) := by
  cases op with
  | register p =>
      dsimp only [applyOp, Op.targetsUsers, Op.targetsCompetitions, Op.targetsLostItems,
        Op.targetsEvents, Op.targetsPosts, Op.targetsComments]
      cases h : register_user p (some db.users) with
      | ok res =>
          obtain ⟨r0, st0⟩ := res
          obtain ⟨-, -, hst⟩ := (register_user_ok_iff p db.users st0 r0).mp h
          subst hst
          simp
      | httpError e => simp
      | serverError => simp
  | newCompetition p =>
      dsimp only [applyOp, Op.targetsUsers, Op.targetsCompetitions, Op.targetsLostItems,
        Op.targetsEvents, Op.targetsPosts, Op.targetsComments]
      cases h : create_competition p (some db.competitions) with
      | ok res =>
          obtain ⟨r0, st0⟩ := res
          obtain ⟨dl, -, -, hst⟩ := (create_competition_ok_iff p db.competitions st0 r0).mp h
          subst hst
          simp
      | httpError e => simp
      | serverError => simp
  | newLostItem p =>
      dsimp only [applyOp, Op.targetsUsers, Op.targetsCompetitions, Op.targetsLostItems,
        Op.targetsEvents, Op.targetsPosts, Op.targetsComments]
      cases h : create_lostfound p (some db.lostitems) with
      | ok res =>
          obtain ⟨r0, st0⟩ := res
          obtain ⟨stat, -, -, hst⟩ := (create_lostfound_ok_iff p db.lostitems st0 r0).mp h
          subst hst
          simp
      | httpError e => simp
      | serverError => simp
  | newEvent p =>
      dsimp only [applyOp, Op.targetsUsers, Op.targetsCompetitions, Op.targetsLostItems,
        Op.targetsEvents, Op.targetsPosts, Op.targetsComments]
      cases h : create_event p (some db.events) with
      | ok res =>
          obtain ⟨r0, st0⟩ := res
          obtain ⟨dt, -, -, hst⟩ := (create_event_ok_iff p db.events st0 r0).mp h
          subst hst
          simp
      | httpError e => simp
      | serverError => simp
  | newPost p =>
      dsimp only [applyOp, Op.targetsUsers, Op.targetsCompetitions, Op.targetsLostItems,
        Op.targetsEvents, Op.targetsPosts, Op.targetsComments]
      rw [create_post_eq]
      simp
  | newComment p =>
      dsimp only [applyOp, Op.targetsUsers, Op.targetsCompetitions, Op.targetsLostItems,
        Op.targetsEvents, Op.targetsPosts, Op.targetsComments]
      rw [create_comment_eq]
      simp

/-- Collection counts after a trace: initial count plus the number of
successful creates into that collection. -/
theorem runTrace_lengths (ops : List Op) : ∀ db : DBState,
    (runTrace db ops).1.users.docs.length =
      db.users.docs.length + successCount (runTrace db ops).2 Op.targetsUsers ∧
    (runTrace db ops).1.competitions.docs.length =
      db.competitions.docs.length + successCount (runTrace db ops).2 Op.targetsCompetitions ∧
    (runTrace db ops).1.lostitems.docs.length =
      db.lostitems.docs.length + successCount (runTrace db ops).2 Op.targetsLostItems ∧
    (runTrace db ops).1.events.docs.length =
      db.events.docs.length + successCount (runTrace db ops).2 Op.targetsEvents ∧
    (runTrace db ops).1.posts.docs.length =
      db.posts.docs.length + successCount (runTrace db ops).2 Op.targetsPosts ∧
    (runTrace db ops).1.comments.docs.length =
      db.comments.docs.length + successCount (runTrace db ops).2 Op.targetsComments := by
  induction ops with
  | nil => intro db; simp [runTrace, successCount]
  | cons op rest ih =>
      intro db
      dsimp only [runTrace]
      have happ := applyOp_lengths db op
      have hrec := ih (applyOp db op).1
      refine ⟨?_, ?_, ?_, ?_, ?_, ?_⟩
      · rw [successCount_cons, hrec.1, happ.1]; dsimp only; omega
      · rw [successCount_cons, hrec.2.1, happ.2.1]; dsimp only; omega
      · rw [successCount_cons, hrec.2.2.1, happ.2.2.1]; dsimp only; omega
      · rw [successCount_cons, hrec.2.2.2.1, happ.2.2.2.1]; dsimp only; omega
      · rw [successCount_cons, hrec.2.2.2.2.1, happ.2.2.2.2.1]; dsimp only; omega
      · rw [successCount_cons, hrec.2.2.2.2.2, happ.2.2.2.2.2]; dsimp only; omega

/-- C7 counterexample: a successfully created comment is stored, yet
the dashboard summary is identical to the clean-state summary — no
count covers the comment collection. -/
theorem dashboard_ignores_comments_counterexample :
    (runTrace DBState.clean [Op.newComment ⟨"p1", "hello", none⟩]).2 =
      [(Op.newComment ⟨"p1", "hello", none⟩, true)] ∧
    count_documents (runTrace DBState.clean [Op.newComment ⟨"p1", "hello", none⟩]).1.comments
      = 1 ∧
    dashboard_summary (some (runTrace DBState.clean [Op.newComment ⟨"p1", "hello", none⟩]).1) =
      dashboard_summary (some DBState.clean) :=
  ⟨rfl, rfl, rfl⟩

/-- C7 amended: from a clean store, each of the five counts the
dashboard reports (users, competitions, lost items, events, posts)
equals the number of successful creates into that collection; every
count is zero when the store is unavailable.  Comment creates are
counted by no field of the summary: the comment collection is not
reported at all. -/
theorem dashboard_summary_counts (ops : List Op) :
    dashboard_summary (some (runTrace DBState.clean ops).1) =
      ⟨successCount (runTrace DBState.clean ops).2 Op.targetsUsers,
       successCount (runTrace DBState.clean ops).2 Op.targetsCompetitions,
       successCount (runTrace DBState.clean ops).2 Op.targetsLostItems,
       successCount (runTrace DBState.clean ops).2 Op.targetsEvents,
       successCount (runTrace DBState.clean ops).2 Op.targetsPosts⟩ ∧
    count_documents (runTrace DBState.clean ops).1.comments =
      successCount (runTrace DBState.clean ops).2 Op.targetsComments ∧
    dashboard_summary none = ⟨0, 0, 0, 0, 0⟩ := by
  have h := runTrace_lengths ops DBState.clean
  refine ⟨?_, ?_, rfl⟩
  · unfold dashboard_summary count_documents
    dsimp only
    simp only [DashboardSummary.mk.injEq]
    refine ⟨?_, ?_, ?_, ?_, ?_⟩
    · rw [h.1]; simp [DBState.clean, Store.empty]
    · rw [h.2.1]; simp [DBState.clean, Store.empty]
    · rw [h.2.2.1]; simp [DBState.clean, Store.empty]
    · rw [h.2.2.2.1]; simp [DBState.clean, Store.empty]
    · rw [h.2.2.2.2.1]; simp [DBState.clean, Store.empty]
  · unfold count_documents
    rw [h.2.2.2.2.2]; simp [DBState.clean, Store.empty]

/-! ## C5: the validation contract -/

/-- C5 counterexample: an empty string in the required `title` field is
not rejected — the body validates, reaches persistence, and a document
with empty title is stored with a success response. -/
theorem competition_empty_title_accepted_counterexample :
    validateCreateCompetition ⟨[("title", JValue.str "")]⟩ =
      some ⟨"", none, none, none, none⟩ ∧
    postCompetitionRoute ⟨[("title", JValue.str "")]⟩ (some Store.empty) =
      .ok (⟨"0"⟩, ⟨[(0, ⟨"", none, none, none, none⟩)], 1⟩) :=
  ⟨rfl, rfl⟩

/-- C5 amended, for the claimed `POST /competitions` instance: a body
that fails request validation (missing required field, or a field of
the wrong type) is rejected with 422 before persistence; a type-correct
body is accepted and stored even when required string fields are empty;
a type-correct body whose `deadline` string is not valid ISO-8601
passes request validation and then fails with an unhandled server error
(HTTP 500), not a client error — nothing is stored in either failure. -/
theorem competition_validation_contract :
    (∀ (j : JObj) (odb : Option (Store Competition)),
       validateCreateCompetition j = none → postCompetitionRoute j odb = .unprocessable) ∧
    (∀ (j : JObj) (p : CreateCompetition) (st : Store Competition),
       validateCreateCompetition j = some p → p.deadline = none →
       postCompetitionRoute j (some st) =
         .ok (⟨toString st.nextId⟩,
           ⟨st.docs ++ [(st.nextId, ⟨p.title, p.description, p.category, none, p.link⟩)],
            st.nextId + 1⟩)) ∧
    (∀ (j : JObj) (p : CreateCompetition) (st : Store Competition) (s : String),
       validateCreateCompetition j = some p → p.deadline = some s → parseDatetime s = none →
       postCompetitionRoute j (some st) = .serverError) := by
  refine ⟨?_, ?_, ?_⟩
  · intro j odb hval
    unfold postCompetitionRoute
    rw [hval]
  · intro j p st hval hdl
    unfold postCompetitionRoute
    rw [hval]
    dsimp only
    have hok : create_competition p (some st) =
        .ok (⟨toString st.nextId⟩,
          ⟨st.docs ++ [(st.nextId, ⟨p.title, p.description, p.category, none, p.link⟩)],
           st.nextId + 1⟩) :=
      (create_competition_ok_iff p st _ _).mpr ⟨none, by simp [buildDatetime, hdl], rfl, rfl⟩
    rw [hok]
  · intro j p st s hval hdl hp
    unfold postCompetitionRoute
    rw [hval]
    dsimp only
    have hsv : create_competition p (some st) = .serverError := by
      unfold create_competition
      dsimp only
      rw [hdl]
      dsimp only
      rw [hp]
    rw [hsv]

/-- Witness for C5: a well-typed body whose deadline is not ISO-8601
reaches the handler and produces a server error, storing nothing. -/
theorem competition_validation_contract_witness :
    postCompetitionRoute ⟨[("title", JValue.str "t"), ("deadline", JValue.str "nope")]⟩
      (some Store.empty) = .serverError :=
  competition_validation_contract.2.2 ⟨[("title", JValue.str "t"), ("deadline", JValue.str "nope")]⟩
    ⟨"t", none, none, some "nope", none⟩ Store.empty "nope" rfl rfl rfl

/-! ## C1: create-then-list round trip -/

theorem toDigitsCore_length_le (b : Nat) :
    ∀ (fuel n : Nat) (ds : List Char), ds.length ≤ (Nat.toDigitsCore b fuel n ds).length := by
  intro fuel
  induction fuel with
  | zero => intro n ds; simp [Nat.toDigitsCore]
  | succ f ih =>
      intro n ds
      simp only [Nat.toDigitsCore]
      split
      · simp
      · exact le_trans (by simp) (ih _ _)

/-- The decimal rendering of a natural number is never the empty
string (so the projected `id` is non-empty). -/
theorem natToString_ne_empty (n : Nat) : toString n ≠ "" := by
  intro h
  have hlen : (toString n).length = 0 := by rw [h]; rfl
  have hpos : 1 ≤ (toString n).length := by
    show 1 ≤ (Nat.repr n).length
    simp only [Nat.repr, Nat.toDigits, String.length, List.asString]
    simp only [Nat.toDigitsCore]
    split
    · simp
    · exact le_trans (by simp) (toDigitsCore_length_le 10 _ _ _)
  omega

/-- C1 counterexample: POSTing a Competition whose deadline is the
valid ISO-8601 date "2024-01-01" and then GETting the list returns the
document with deadline "2024-01-01T00:00:00" — the submitted value does
not come back unchanged (pydantic parses the string to a `datetime`,
which is serialized back in full isoformat). -/
theorem post_get_roundtrip_counterexample :
    create_competition ⟨"t", none, none, some "2024-01-01", none⟩ (some Store.empty) =
      .ok (⟨"0"⟩, ⟨[(0, ⟨"t", none, none, some ⟨2024, 1, 1, 0, 0, 0⟩, none⟩)], 1⟩) ∧
    list_competitions (some ⟨[(0, ⟨"t", none, none, some ⟨2024, 1, 1, 0, 0, 0⟩, none⟩)], 1⟩) =
      [⟨"0", "t", none, none, some "2024-01-01T00:00:00", none⟩] ∧
    (some "2024-01-01T00:00:00" : Option String) ≠ some "2024-01-01" :=
  ⟨rfl, rfl, by decide⟩

/-- C1 amended: for each of the five resources, a successful POST
followed by the corresponding GET returns a document carrying the
store-generated non-empty `id` (the request models have no `id` field)
and every submitted field with its submitted value — except that the
timestamp fields `Competition.deadline` and `Event.date` come back as
the ISO-8601 serialization of their parsed value, which equals the
submitted string exactly when it was already in canonical
`YYYY-MM-DDTHH:MM:SS` form. -/
theorem post_then_get_roundtrip :
    (∀ (p : CreateCompetition) (st st2 : Store Competition) (r : IdResponse),
       create_competition p (some st) = .ok (r, st2) →
       ∃ item ∈ list_competitions (some st2),
         item.id = r.id ∧ r.id ≠ "" ∧ item.title = p.title ∧
         item.description = p.description ∧ item.category = p.category ∧
         item.link = p.link ∧
         ((p.deadline = none ∧ item.deadline = none) ∨
          (∃ s d, p.deadline = some s ∧ parseDatetime s = some d ∧
            item.deadline = some (serializeDatetime d)))) ∧
    (∀ (p : CreateLostItem) (st st2 : Store LostItem) (r : IdResponse),
       create_lostfound p (some st) = .ok (r, st2) →
       ∃ item ∈ list_lostfound (some st2),
         item.id = r.id ∧ r.id ≠ "" ∧ item.title = p.title ∧
         item.description = p.description ∧ item.location = p.location ∧
         item.contact = p.contact ∧ p.status = some item.status) ∧
    (∀ (p : CreateEvent) (st st2 : Store Event) (r : IdResponse),
       create_event p (some st) = .ok (r, st2) →
       ∃ item ∈ list_events (some st2),
         item.id = r.id ∧ r.id ≠ "" ∧ item.title = p.title ∧
         item.description = p.description ∧ item.location = p.location ∧
         item.link = p.link ∧
         ((p.date = none ∧ item.date = none) ∨
          (∃ s d, p.date = some s ∧ parseDatetime s = some d ∧
            item.date = some (serializeDatetime d)))) ∧
    (∀ (p : CreateForumPost) (st st2 : Store ForumPost) (r : IdResponse),
       create_post p (some st) = .ok (r, st2) →
       ∃ item ∈ list_posts (some st2),
         item.id = r.id ∧ r.id ≠ "" ∧ item.title = p.title ∧
         item.content = p.content ∧ item.author = p.author ∧ item.tags = p.tags) ∧
    (∀ (p : CreateComment) (st st2 : Store Comment) (r : IdResponse),
       create_comment p (some st) = .ok (r, st2) →
       ∃ item ∈ list_comments p.post_id (some st2),
         item.id = r.id ∧ r.id ≠ "" ∧ item.post_id = p.post_id ∧
         item.content = p.content ∧ item.author = p.author) := by
  refine ⟨?_, ?_, ?_, ?_, ?_⟩
  · intro p st st2 r hcr
    obtain ⟨dl, hdl, hr, hst2⟩ := (create_competition_ok_iff p st st2 r).mp hcr
    subst hst2; subst hr
    refine ⟨competitionOut (st.nextId, ⟨p.title, p.description, p.category, dl, p.link⟩),
      by simp [list_competitions, get_documents], rfl, natToString_ne_empty _,
      rfl, rfl, rfl, rfl, ?_⟩
    cases hdlp : p.deadline with
    | none =>
        rw [hdlp] at hdl
        simp only [buildDatetime, Option.some.injEq] at hdl
        subst hdl
        exact Or.inl ⟨rfl, rfl⟩
    | some s =>
        rw [hdlp] at hdl
        cases hps : parseDatetime s with
        | none => simp [buildDatetime, hps] at hdl
        | some d =>
            simp only [buildDatetime, hps] at hdl
            have h3 : some d = dl := by simpa using hdl
            subst h3
            exact Or.inr ⟨s, d, rfl, hps, rfl⟩
  · intro p st st2 r hcr
    obtain ⟨stat, hs, hr, hst2⟩ := (create_lostfound_ok_iff p st st2 r).mp hcr
    subst hst2; subst hr
    exact ⟨lostItemOut (st.nextId, ⟨p.title, p.description, p.location, stat, p.contact⟩),
      by simp [list_lostfound, get_documents], rfl, natToString_ne_empty _,
      rfl, rfl, rfl, rfl, hs⟩
  · intro p st st2 r hcr
    obtain ⟨dt, hdt, hr, hst2⟩ := (create_event_ok_iff p st st2 r).mp hcr
    subst hst2; subst hr
    refine ⟨eventOut (st.nextId, ⟨p.title, p.description, dt, p.location, p.link⟩),
      by simp [list_events, get_documents], rfl, natToString_ne_empty _,
      rfl, rfl, rfl, rfl, ?_⟩
    cases hdlp : p.date with
    | none =>
        rw [hdlp] at hdt
        simp only [buildDatetime, Option.some.injEq] at hdt
        subst hdt
        exact Or.inl ⟨rfl, rfl⟩
    | some s =>
        rw [hdlp] at hdt
        cases hps : parseDatetime s with
        | none => simp [buildDatetime, hps] at hdt
        | some d =>
            simp only [buildDatetime, hps] at hdt
            have h3 : some d = dt := by simpa using hdt
            subst h3
            exact Or.inr ⟨s, d, rfl, hps, rfl⟩
  · intro p st st2 r hcr
    rw [create_post_eq] at hcr
    injection hcr with hcr
    injection hcr with hr hst2
    subst hst2; subst hr
    exact ⟨forumPostOut (st.nextId, ⟨p.title, p.content, p.author, p.tags⟩),
      by simp [list_posts, get_documents], rfl, natToString_ne_empty _, rfl, rfl, rfl, rfl⟩
  · intro p st st2 r hcr
    rw [create_comment_eq] at hcr
    injection hcr with hcr
    injection hcr with hr hst2
    subst hst2; subst hr
    exact ⟨commentOut (st.nextId, ⟨p.post_id, p.content, p.author⟩),
      by simp [list_comments, get_documents_filtered], rfl, natToString_ne_empty _,
      rfl, rfl, rfl⟩

/-- Witness for C1 (amended) at a concrete Competition with a
canonical-form deadline. -/
theorem post_then_get_roundtrip_witness :
    ∃ item ∈ list_competitions
        (some ⟨[(0, ⟨"t", none, none, some ⟨2024, 1, 1, 0, 0, 0⟩, none⟩)], 1⟩),
      item.id = (⟨"0"⟩ : IdResponse).id ∧ (⟨"0"⟩ : IdResponse).id ≠ "" ∧ item.title = "t" ∧
      item.description = none ∧ item.category = none ∧ item.link = none ∧
      (((some "2024-01-01T00:00:00" : Option String) = none ∧ item.deadline = none) ∨
       (∃ s d, (some "2024-01-01T00:00:00" : Option String) = some s ∧
         parseDatetime s = some d ∧ item.deadline = some (serializeDatetime d))) :=
  post_then_get_roundtrip.1 ⟨"t", none, none, some "2024-01-01T00:00:00", none⟩ Store.empty
    ⟨[(0, ⟨"t", none, none, some ⟨2024, 1, 1, 0, 0, 0⟩, none⟩)], 1⟩ ⟨"0"⟩ rfl

end Younifirst
